import Mathlib

/-!
# Verification of `hardhat.config.js`

The module reads four variables from `process.env` and exports one object
literal.  The embedding below keeps the shape of the source: a small type
of JavaScript values, the object literal written entry by entry in source
order, and the template literal of the `rinkeby` url with the string
conversion JavaScript applies to an interpolated value.

The environment is `process.env` as it stands once `require("dotenv").config()`
has returned: a lookup from a variable name to a string, or to nothing when
the variable is unset.
-/

namespace HardhatConfig

/-- JavaScript values that occur in the exported object. -/
inductive JSVal where
  | undefined : JSVal
  | str : String → JSVal
  | num : Int → JSVal
  | bool : Bool → JSVal
  | arr : List JSVal → JSVal
  | obj : List (String × JSVal) → JSVal

/-- The state of `process.env`: each name is bound to a string or is unset. -/
abbrev Env := String → Option String

/-- Reading an identifier bound by destructuring `process.env`: the string
when the variable is set, `undefined` otherwise. -/
def envValue : Option String → JSVal
  | some s => JSVal.str s
  | none => JSVal.undefined

/-- The string a template literal substitutes for `${x}` when `x` was read
from `process.env`: the string itself, and the text `undefined` when `x` is
`undefined`. -/
def templateString : Option String → String
  | some s => s
  | none => "undefined"

/-- The environment with one variable rebound (set, or unset with `none`). -/
def Env.set (env : Env) (name : String) (v : Option String) : Env :=
  fun k => if k = name then v else env k

/-- The environment in which no variable is set. -/
def emptyEnv : Env := fun _ => none

/-- Own property lookup: `some v` when the value is an object with the key
(`v` may itself be `undefined`), `none` when the key is absent or the value
is not an object. -/
def JSVal.prop? : JSVal → String → Option JSVal
  | JSVal.obj kvs, k => kvs.lookup k
  | _, _ => none

/-- The own keys of an object, in source order (`Object.keys`). -/
def JSVal.keys : JSVal → List String
  | JSVal.obj kvs => kvs.map Prod.fst
  | _ => []

/-- Property access `o.k`: the stored value, `undefined` when there is none. -/
def JSVal.get (v : JSVal) (k : String) : JSVal :=
  (v.prop? k).getD JSVal.undefined

/-- The object literal assigned to `module.exports`, over the four
identifiers destructured from `process.env`. -/
def moduleExports (infuraId privateKey privateKey_live ETHERSCAN_API_KEY : Option String) :
    JSVal :=
  let _ := privateKey
  JSVal.obj [
    ("defaultNetwork", JSVal.str "hardhat"),
    ("networks", JSVal.obj [
      ("hardhat", JSVal.obj [
        ("chainId", JSVal.num 1337)]),
      ("rinkeby", JSVal.obj [
        ("url", JSVal.str ("https://rinkeby.infura.io/v3/" ++ templateString infuraId)),
        ("accounts", JSVal.arr [envValue privateKey_live])])]),
    ("solidity", JSVal.obj [
      ("version", JSVal.str "0.8.10"),
      ("settings", JSVal.obj [
        ("optimizer", JSVal.obj [
          ("enabled", JSVal.bool true),
          ("runs", JSVal.num 200)])])]),
    ("etherscan", JSVal.obj [
      ("apiKey", envValue ETHERSCAN_API_KEY)])]

/-- The module body: destructure `process.env`, then build `module.exports`. -/
def config (env : Env) : JSVal :=
  moduleExports (env "infuraId") (env "privateKey") (env "privateKey_live")
    (env "ETHERSCAN_API_KEY")

/-- The value of `module.exports.networks`. -/
def networks (env : Env) : JSVal := (config env).get "networks"

/-- The value of `module.exports.networks.rinkeby`. -/
def rinkeby (env : Env) : JSVal := (networks env).get "rinkeby"

/-- The value of `module.exports.networks.hardhat`. -/
def hardhat (env : Env) : JSVal := (networks env).get "hardhat"

/-- The value of `module.exports.solidity`. -/
def solidity (env : Env) : JSVal := (config env).get "solidity"

/-- The value of `module.exports.solidity.settings.optimizer`. -/
def optimizer (env : Env) : JSVal := ((solidity env).get "settings").get "optimizer"

/-- The value of `module.exports.etherscan`. -/
def etherscan (env : Env) : JSVal := (config env).get "etherscan"

/-! ## Unfolding lemmas -/

theorem networks_eq (env : Env) :
    networks env = JSVal.obj [
      ("hardhat", JSVal.obj [("chainId", JSVal.num 1337)]),
      ("rinkeby", JSVal.obj [
        ("url", JSVal.str ("https://rinkeby.infura.io/v3/" ++ templateString (env "infuraId"))),
        ("accounts", JSVal.arr [envValue (env "privateKey_live")])])] := by
  simp [networks, config, moduleExports, JSVal.get, JSVal.prop?, List.lookup]

theorem rinkeby_eq (env : Env) :
    rinkeby env = JSVal.obj [
      ("url", JSVal.str ("https://rinkeby.infura.io/v3/" ++ templateString (env "infuraId"))),
      ("accounts", JSVal.arr [envValue (env "privateKey_live")])] := by
  simp [rinkeby, networks_eq, JSVal.get, JSVal.prop?, List.lookup]

theorem hardhat_eq (env : Env) :
    hardhat env = JSVal.obj [("chainId", JSVal.num 1337)] := by
  simp [hardhat, networks_eq, JSVal.get, JSVal.prop?, List.lookup]

theorem solidity_eq (env : Env) :
    solidity env = JSVal.obj [
      ("version", JSVal.str "0.8.10"),
      ("settings", JSVal.obj [
        ("optimizer", JSVal.obj [
          ("enabled", JSVal.bool true),
          ("runs", JSVal.num 200)])])] := by
  simp [solidity, config, moduleExports, JSVal.get, JSVal.prop?, List.lookup]

theorem optimizer_eq (env : Env) :
    optimizer env = JSVal.obj [("enabled", JSVal.bool true), ("runs", JSVal.num 200)] := by
  simp [optimizer, solidity_eq, JSVal.get, JSVal.prop?, List.lookup]

theorem etherscan_eq (env : Env) :
    etherscan env = JSVal.obj [("apiKey", envValue (env "ETHERSCAN_API_KEY"))] := by
  simp [etherscan, config, moduleExports, JSVal.get, JSVal.prop?, List.lookup]

/-! ## Environment lemmas -/

theorem Env.set_same (env : Env) (name : String) (v : Option String) :
    (env.set name v) name = v := by
  simp [Env.set]

theorem Env.set_other (env : Env) (name k : String) (v : Option String) (h : k ≠ name) :
    (env.set name v) k = env k := by
  simp [Env.set, h]

/-! ## The remote network profile -/

/-- C1: in every environment that binds `infuraId` to a string `s`, the url
of the `rinkeby` profile is the text `https://rinkeby.infura.io/v3/` followed
by `s` and by nothing else. -/
theorem rinkeby_url_of_infuraId (env : Env) (s : String) (h : env "infuraId" = some s) :
    (rinkeby env).prop? "url" = some (JSVal.str ("https://rinkeby.infura.io/v3/" ++ s)) := by
  simp [rinkeby_eq, JSVal.prop?, List.lookup, h, templateString]

/-- Witness for C1: with `infuraId` set to `abc123` the url is exactly
`https://rinkeby.infura.io/v3/abc123`. -/
theorem rinkeby_url_of_infuraId_witness :
    (emptyEnv.set "infuraId" (some "abc123")) "infuraId" = some "abc123" ∧
    (rinkeby (emptyEnv.set "infuraId" (some "abc123"))).prop? "url"
      = some (JSVal.str "https://rinkeby.infura.io/v3/abc123") :=
  ⟨rfl, rinkeby_url_of_infuraId (emptyEnv.set "infuraId" (some "abc123")) "abc123" rfl⟩

/-- C2: in every environment the `accounts` of the `rinkeby` profile is an
array of length one whose element is the value of `privateKey_live`; rebinding
`privateKey`, `infuraId` or `ETHERSCAN_API_KEY` to anything leaves it
unchanged. -/
theorem rinkeby_accounts (env : Env) :
    (∃ xs : List JSVal, (rinkeby env).prop? "accounts" = some (JSVal.arr xs) ∧
      xs.length = 1 ∧ xs = [envValue (env "privateKey_live")]) ∧
    (∀ v : Option String,
      (rinkeby (env.set "privateKey" v)).prop? "accounts" = (rinkeby env).prop? "accounts" ∧
      (rinkeby (env.set "infuraId" v)).prop? "accounts" = (rinkeby env).prop? "accounts" ∧
      (rinkeby (env.set "ETHERSCAN_API_KEY" v)).prop? "accounts"
        = (rinkeby env).prop? "accounts") := by
  refine ⟨⟨[envValue (env "privateKey_live")], ?_, rfl, rfl⟩, fun v => ⟨?_, ?_, ?_⟩⟩
  · simp [rinkeby_eq, JSVal.prop?, List.lookup]
  · simp [rinkeby_eq, JSVal.prop?, List.lookup, Env.set]
  · simp [rinkeby_eq, JSVal.prop?, List.lookup, Env.set]
  · simp [rinkeby_eq, JSVal.prop?, List.lookup, Env.set]

/-- C3 as stated fails: with `infuraId`, `privateKey_live` and
`ETHERSCAN_API_KEY` all unset, the url of the `rinkeby` profile is not
`undefined` but the defined string ending in the text `undefined`. -/
theorem rinkeby_url_unset_not_undefined :
    emptyEnv "infuraId" = none ∧ emptyEnv "privateKey_live" = none ∧
    emptyEnv "ETHERSCAN_API_KEY" = none ∧
    (rinkeby emptyEnv).prop? "url"
      = some (JSVal.str "https://rinkeby.infura.io/v3/undefined") ∧
    (rinkeby emptyEnv).prop? "url" ≠ some JSVal.undefined := by
  refine ⟨rfl, rfl, rfl, ?_, ?_⟩
  · simp [rinkeby_eq, JSVal.prop?, List.lookup, emptyEnv, templateString]
  · simp [rinkeby_eq, JSVal.prop?, List.lookup]

/-- C3 amended: in every environment where `infuraId`, `privateKey_live` and
`ETHERSCAN_API_KEY` are unset the module still yields its object; the element
of the `rinkeby` accounts and the etherscan `apiKey` are `undefined`, and the
`rinkeby` url is the string `https://rinkeby.infura.io/v3/undefined`. -/
theorem config_of_unset (env : Env) (h1 : env "infuraId" = none)
    (h2 : env "privateKey_live" = none) (h3 : env "ETHERSCAN_API_KEY" = none) :
    config env = moduleExports none (env "privateKey") none none ∧
    (rinkeby env).prop? "url"
      = some (JSVal.str "https://rinkeby.infura.io/v3/undefined") ∧
    (rinkeby env).prop? "accounts" = some (JSVal.arr [JSVal.undefined]) ∧
    (etherscan env).prop? "apiKey" = some JSVal.undefined := by
  refine ⟨?_, ?_, ?_, ?_⟩
  · simp [config, h1, h2, h3]
  · simp [rinkeby_eq, JSVal.prop?, List.lookup, h1, templateString]
  · simp [rinkeby_eq, JSVal.prop?, List.lookup, h2, envValue]
  · simp [etherscan_eq, JSVal.prop?, List.lookup, h3, envValue]

/-- Witness for the amended C3, at an environment that sets only
`privateKey`. -/
theorem config_of_unset_witness :
    (emptyEnv.set "privateKey" (some "k")) "infuraId" = none ∧
    (emptyEnv.set "privateKey" (some "k")) "privateKey_live" = none ∧
    (emptyEnv.set "privateKey" (some "k")) "ETHERSCAN_API_KEY" = none ∧
    (config (emptyEnv.set "privateKey" (some "k"))
        = moduleExports none ((emptyEnv.set "privateKey" (some "k")) "privateKey") none none ∧
      (rinkeby (emptyEnv.set "privateKey" (some "k"))).prop? "url"
        = some (JSVal.str "https://rinkeby.infura.io/v3/undefined") ∧
      (rinkeby (emptyEnv.set "privateKey" (some "k"))).prop? "accounts"
        = some (JSVal.arr [JSVal.undefined]) ∧
      (etherscan (emptyEnv.set "privateKey" (some "k"))).prop? "apiKey"
        = some JSVal.undefined) :=
  ⟨by decide, by decide, by decide,
    config_of_unset (emptyEnv.set "privateKey" (some "k")) (by decide) (by decide) (by decide)⟩

/-! ## Literal parts of the record -/

/-- C4: in every environment `defaultNetwork` is a string that occurs among
the keys of `networks`. -/
theorem defaultNetwork_mem_keys (env : Env) :
    ∃ name : String, (config env).prop? "defaultNetwork" = some (JSVal.str name) ∧
      name ∈ (networks env).keys := by
  refine ⟨"hardhat", ?_, ?_⟩
  · simp [config, moduleExports, JSVal.prop?, List.lookup]
  · simp [networks_eq, JSVal.keys]

/-- C5: in every environment `defaultNetwork` is `hardhat`, and the profile
stored under the key `hardhat` has `chainId` 1337. -/
theorem defaultNetwork_hardhat_chainId (env : Env) :
    (config env).prop? "defaultNetwork" = some (JSVal.str "hardhat") ∧
    (networks env).prop? "hardhat" = some (hardhat env) ∧
    (hardhat env).prop? "chainId" = some (JSVal.num 1337) := by
  refine ⟨?_, ?_, ?_⟩
  · simp [config, moduleExports, JSVal.prop?, List.lookup]
  · simp [hardhat_eq, networks_eq, JSVal.prop?, List.lookup]
  · simp [hardhat_eq, JSVal.prop?, List.lookup]

/-- C6: in every environment the compiler settings are the literals of the
source: version `0.8.10`, optimizer enabled, 200 runs (a positive number);
they are the same as in the environment that sets nothing. -/
theorem solidity_literals (env : Env) :
    (solidity env).prop? "version" = some (JSVal.str "0.8.10") ∧
    (optimizer env).prop? "enabled" = some (JSVal.bool true) ∧
    (∃ runs : Int, (optimizer env).prop? "runs" = some (JSVal.num runs) ∧
      runs = 200 ∧ 0 < runs) ∧
    solidity env = solidity emptyEnv := by
  refine ⟨?_, ?_, ⟨200, ?_, rfl, by decide⟩, ?_⟩
  · simp [solidity_eq, JSVal.prop?, List.lookup]
  · simp [optimizer_eq, JSVal.prop?, List.lookup]
  · simp [optimizer_eq, JSVal.prop?, List.lookup]
  · rw [solidity_eq, solidity_eq]

/-- C7: in every environment `networks` has exactly the two distinct keys
`hardhat` and `rinkeby`; the `hardhat` profile has a `chainId` and neither
`url` nor `accounts`; the `rinkeby` profile has `url` and `accounts` and no
`chainId`. -/
theorem networks_shape (env : Env) :
    (networks env).keys = ["hardhat", "rinkeby"] ∧ "hardhat" ≠ "rinkeby" ∧
    (networks env).prop? "hardhat" = some (hardhat env) ∧
    (networks env).prop? "rinkeby" = some (rinkeby env) ∧
    (hardhat env).keys = ["chainId"] ∧
    ((hardhat env).prop? "chainId").isSome = true ∧
    (hardhat env).prop? "url" = none ∧
    (hardhat env).prop? "accounts" = none ∧
    (rinkeby env).keys = ["url", "accounts"] ∧
    ((rinkeby env).prop? "url").isSome = true ∧
    ((rinkeby env).prop? "accounts").isSome = true ∧
    (rinkeby env).prop? "chainId" = none := by
  refine ⟨?_, by decide, ?_, ?_, ?_, ?_, ?_, ?_, ?_, ?_, ?_, ?_⟩
  · simp [networks_eq, JSVal.keys]
  · simp [hardhat_eq, networks_eq, JSVal.prop?, List.lookup]
  · simp [rinkeby_eq, networks_eq, JSVal.prop?, List.lookup]
  · simp [hardhat_eq, JSVal.keys]
  · simp [hardhat_eq, JSVal.prop?, List.lookup]
  · simp [hardhat_eq, JSVal.prop?, List.lookup]
  · simp [hardhat_eq, JSVal.prop?, List.lookup]
  · simp [rinkeby_eq, JSVal.keys]
  · simp [rinkeby_eq, JSVal.prop?, List.lookup]
  · simp [rinkeby_eq, JSVal.prop?, List.lookup]
  · simp [rinkeby_eq, JSVal.prop?, List.lookup]

/-- C8: in every environment the etherscan `apiKey` is the value of
`ETHERSCAN_API_KEY`: that string when the variable is set, `undefined` when
it is unset. -/
theorem etherscan_apiKey (env : Env) :
    (etherscan env).prop? "apiKey" = some (envValue (env "ETHERSCAN_API_KEY")) ∧
    (∀ s : String, (etherscan (env.set "ETHERSCAN_API_KEY" (some s))).prop? "apiKey"
      = some (JSVal.str s)) ∧
    (etherscan (env.set "ETHERSCAN_API_KEY" none)).prop? "apiKey" = some JSVal.undefined := by
  refine ⟨?_, fun s => ?_, ?_⟩
  · simp [etherscan_eq, JSVal.prop?, List.lookup]
  · simp [etherscan_eq, JSVal.prop?, List.lookup, Env.set, envValue]
  · simp [etherscan_eq, JSVal.prop?, List.lookup, Env.set, envValue]

/-! ## Dependence on the environment -/

/-- C9: building the record twice from the same environment (two lookups
that agree on every name) gives structurally equal records, and so equal
networks, accounts, compiler settings and api key. -/
theorem config_deterministic (env₁ env₂ : Env) (h : ∀ k : String, env₁ k = env₂ k) :
    config env₁ = config env₂ ∧ networks env₁ = networks env₂ ∧
    (rinkeby env₁).prop? "accounts" = (rinkeby env₂).prop? "accounts" ∧
    solidity env₁ = solidity env₂ ∧
    (etherscan env₁).prop? "apiKey" = (etherscan env₂).prop? "apiKey" := by
  have e : env₁ = env₂ := funext h
  subst e
  exact ⟨rfl, rfl, rfl, rfl, rfl⟩

/-- Witness for C9: two lookups written differently that agree on every
name. -/
theorem config_deterministic_witness :
    (∀ k : String, (emptyEnv.set "infuraId" (some "abc123")) k
      = (fun n => if n = "infuraId" then some "abc123" else none) k) ∧
    (config (emptyEnv.set "infuraId" (some "abc123"))
        = config (fun n => if n = "infuraId" then some "abc123" else none) ∧
      networks (emptyEnv.set "infuraId" (some "abc123"))
        = networks (fun n => if n = "infuraId" then some "abc123" else none) ∧
      (rinkeby (emptyEnv.set "infuraId" (some "abc123"))).prop? "accounts"
        = (rinkeby (fun n => if n = "infuraId" then some "abc123" else none)).prop?
            "accounts" ∧
      solidity (emptyEnv.set "infuraId" (some "abc123"))
        = solidity (fun n => if n = "infuraId" then some "abc123" else none) ∧
      (etherscan (emptyEnv.set "infuraId" (some "abc123"))).prop? "apiKey"
        = (etherscan (fun n => if n = "infuraId" then some "abc123" else none)).prop?
            "apiKey") :=
  ⟨fun _ => rfl, config_deterministic _ _ (fun _ => rfl)⟩

/-- C10: two environments that agree on `infuraId`, `privateKey_live` and
`ETHERSCAN_API_KEY` give equal records whatever each gives for `privateKey`;
the record is the one built with `privateKey` unset. -/
theorem privateKey_unused (env₁ env₂ : Env) (h1 : env₁ "infuraId" = env₂ "infuraId")
    (h2 : env₁ "privateKey_live" = env₂ "privateKey_live")
    (h3 : env₁ "ETHERSCAN_API_KEY" = env₂ "ETHERSCAN_API_KEY") :
    config env₁ = config env₂ ∧
    config env₁ = moduleExports (env₁ "infuraId") none (env₁ "privateKey_live")
      (env₁ "ETHERSCAN_API_KEY") := by
  refine ⟨?_, ?_⟩
  · simp [config, moduleExports, h1, h2, h3]
  · simp [config, moduleExports]

/-- Witness for C10: one environment sets `privateKey`, the other leaves it
unset, and both set the three other variables alike. -/
theorem privateKey_unused_witness :
    (((emptyEnv.set "infuraId" (some "abc123")).set "privateKey_live" (some "live")).set
        "privateKey" (some "dev")) "infuraId"
      = ((emptyEnv.set "infuraId" (some "abc123")).set "privateKey_live" (some "live"))
          "infuraId" ∧
    (((emptyEnv.set "infuraId" (some "abc123")).set "privateKey_live" (some "live")).set
        "privateKey" (some "dev")) "privateKey"
      ≠ ((emptyEnv.set "infuraId" (some "abc123")).set "privateKey_live" (some "live"))
          "privateKey" ∧
    config (((emptyEnv.set "infuraId" (some "abc123")).set "privateKey_live"
        (some "live")).set "privateKey" (some "dev"))
      = config ((emptyEnv.set "infuraId" (some "abc123")).set "privateKey_live"
          (some "live")) :=
  ⟨by decide, by decide,
    (privateKey_unused
      (((emptyEnv.set "infuraId" (some "abc123")).set "privateKey_live" (some "live")).set
        "privateKey" (some "dev"))
      ((emptyEnv.set "infuraId" (some "abc123")).set "privateKey_live" (some "live"))
      (by decide) (by decide) (by decide)).1⟩

end HardhatConfig
